import Mathlib

/-!
Verification of the clapgo C bridge (src/src/c): a shallow embedding of the
manifest store, descriptor synthesizer, capability dispatcher and lifecycle
forwarding code, together with theorems settling the spec claims.

Modelling conventions:
* C pointers become `Option`; `none` is the NULL pointer.
* Machine integers become `Nat`/`Int` (no arithmetic overflow is exercised by
  the embedded code paths).
* The heap allocator (`calloc`/`strdup`) becomes an oracle `Alloc : Nat → Bool`
  threaded with an allocation counter: the n-th allocation attempt succeeds
  iff the oracle is true at n.
* The statically/weakly linked Go exports (`ClapGo_*`) are represented by a
  symbol environment `SymEnv : Sym → Bool` saying which exported symbols are
  non-null, exactly the pointers tested at bridge.c:272-301.
-/

namespace Clapgo

/-- The protocol descriptor (clap_plugin_descriptor_t) as built by the bridge:
every string field is an independently allocated copy, hence `Option String`
(`none` = NULL, that is, a failed or absent copy).  `features` is the
null-terminated feature array; a `none` element is a NULL entry produced by a
failed copy. -/
structure CDescriptor where
  id : Option String
  name : Option String
  vendor : Option String
  url : Option String
  manual_url : Option String
  support_url : Option String
  version : Option String
  description : Option String
  features : Option (List (Option String))
deriving DecidableEq, Repr

/-- The optional/weak Go export symbols the bridge tests or invokes
(bridge.c:25-113).  Constructor names match the C symbol names. -/
inductive Sym
  | ClapGo_PluginParamsCount
  | ClapGo_PluginParamsGetInfo
  | ClapGo_PluginParamsGetValue
  | ClapGo_PluginParamsValueToText
  | ClapGo_PluginParamsTextToValue
  | ClapGo_PluginParamsFlush
  | ClapGo_PluginStateSave
  | ClapGo_PluginStateLoad
  | ClapGo_PluginNotePortsCount
  | ClapGo_PluginNotePortsGet
  | ClapGo_PluginLatencyGet
  | ClapGo_PluginTailGet
  | ClapGo_PluginOnTimer
  | ClapGo_PluginAudioPortsConfigCount
  | ClapGo_PluginAudioPortsConfigGet
  | ClapGo_PluginAudioPortsConfigSelect
  | ClapGo_PluginAudioPortsConfigCurrentConfig
  | ClapGo_PluginAudioPortsConfigGetInfo
  | ClapGo_PluginSurroundIsChannelMaskSupported
  | ClapGo_PluginSurroundGetChannelMap
  | ClapGo_PluginVoiceInfoGet
  | ClapGo_PluginStateSaveWithContext
  | ClapGo_PluginStateLoadWithContext
  | ClapGo_PluginPresetLoadFromLocation
  | ClapGo_PluginTrackInfoChanged
  | ClapGo_PluginParamIndicationSetMapping
  | ClapGo_PluginParamIndicationSetAutomation
  | ClapGo_PluginContextMenuPopulate
  | ClapGo_PluginContextMenuPerform
  | ClapGo_PluginRemoteControlsCount
  | ClapGo_PluginRemoteControlsGet
  | ClapGo_PluginNoteNameCount
  | ClapGo_PluginNoteNameGet
  | ClapGo_PluginAmbisonicIsConfigSupported
  | ClapGo_PluginAmbisonicGetConfig
  | ClapGo_PluginAudioPortsActivationCanActivateWhileProcessing
  | ClapGo_PluginAudioPortsActivationSetActive
deriving DecidableEq, Repr

/-- Which Go export symbols resolved to a non-null pointer in the loaded
module (weak symbols may be absent; the environment is fixed at link/load
time). -/
def SymEnv : Type := Sym → Bool

/-- go_plugin_data_t (bridge.h:45-70): the per-instance record holding the
opaque Go instance pointer, descriptor back-reference, manifest index and the
per-extension capability flags. -/
structure GoPluginData where
  go_instance : Option Nat
  descriptor : Option CDescriptor
  manifest_index : Int
  supports_params : Bool
  supports_note_ports : Bool
  supports_state : Bool
  supports_latency : Bool
  supports_tail : Bool
  supports_timer : Bool
  supports_audio_ports_config : Bool
  supports_surround : Bool
  supports_voice_info : Bool
  supports_state_context : Bool
  supports_preset_load : Bool
  supports_track_info : Bool
  supports_param_indication : Bool
  supports_context_menu : Bool
  supports_remote_controls : Bool
  supports_note_name : Bool
  supports_ambisonic : Bool
  supports_audio_ports_activation : Bool
deriving DecidableEq, Repr

/-- The capability-flag computation performed once at instance creation,
translated clause by clause from clapgo_create_plugin_from_manifest
(bridge.c:261-301): each flag is the conjunction of the null-checks the C
code performs on the Go export pointers. -/
def create_plugin_capability_flags (env : SymEnv) (go_instance : Nat)
    (index : Int) (desc : Option CDescriptor) : GoPluginData where
  go_instance := some go_instance
  descriptor := desc
  manifest_index := index
  supports_params := env .ClapGo_PluginParamsCount
  supports_note_ports := env .ClapGo_PluginNotePortsCount &&
    env .ClapGo_PluginNotePortsGet
  supports_state := env .ClapGo_PluginStateSave &&
    env .ClapGo_PluginStateLoad
  supports_latency := env .ClapGo_PluginLatencyGet
  supports_tail := env .ClapGo_PluginTailGet
  supports_timer := env .ClapGo_PluginOnTimer
  supports_audio_ports_config := env .ClapGo_PluginAudioPortsConfigCount &&
    env .ClapGo_PluginAudioPortsConfigGet &&
    env .ClapGo_PluginAudioPortsConfigSelect
  supports_surround := env .ClapGo_PluginSurroundIsChannelMaskSupported &&
    env .ClapGo_PluginSurroundGetChannelMap
  supports_voice_info := env .ClapGo_PluginVoiceInfoGet
  supports_state_context := env .ClapGo_PluginStateSaveWithContext &&
    env .ClapGo_PluginStateLoadWithContext
  supports_preset_load := env .ClapGo_PluginPresetLoadFromLocation
  supports_track_info := env .ClapGo_PluginTrackInfoChanged
  supports_param_indication := env .ClapGo_PluginParamIndicationSetMapping &&
    env .ClapGo_PluginParamIndicationSetAutomation
  supports_context_menu := env .ClapGo_PluginContextMenuPopulate &&
    env .ClapGo_PluginContextMenuPerform
  supports_remote_controls := env .ClapGo_PluginRemoteControlsCount &&
    env .ClapGo_PluginRemoteControlsGet
  supports_note_name := env .ClapGo_PluginNoteNameCount &&
    env .ClapGo_PluginNoteNameGet
  supports_ambisonic := env .ClapGo_PluginAmbisonicIsConfigSupported &&
    env .ClapGo_PluginAmbisonicGetConfig
  supports_audio_ports_activation :=
    env .ClapGo_PluginAudioPortsActivationCanActivateWhileProcessing &&
    env .ClapGo_PluginAudioPortsActivationSetActive

/-- clap_plugin_t as far as the dispatch code reads it: the plugin_data
pointer (the callbacks are the fixed clapgo_* functions embedded below, the
desc pointer is not consulted by the dispatcher). -/
structure ClapPlugin where
  plugin_data : Option GoPluginData
deriving DecidableEq, Repr

/-! CLAP extension id string constants.  These come from the external CLAP
protocol headers (include/clap, not part of src/); only their pairwise
distinctness matters to the bridge, which compares them with strcmp. -/

def CLAP_EXT_PARAMS : String := "clap.params"

def CLAP_EXT_STATE : String := "clap.state"

def CLAP_EXT_STATE_CONTEXT : String := "clap.state-context/2"

def CLAP_EXT_AUDIO_PORTS : String := "clap.audio-ports"

def CLAP_EXT_NOTE_PORTS : String := "clap.note-ports"

def CLAP_EXT_LATENCY : String := "clap.latency"

def CLAP_EXT_TAIL : String := "clap.tail"

def CLAP_EXT_TIMER_SUPPORT : String := "clap.timer-support"

def CLAP_EXT_AUDIO_PORTS_CONFIG : String := "clap.audio-ports-config"

def CLAP_EXT_AUDIO_PORTS_CONFIG_INFO : String := "clap.audio-ports-config-info/1"

def CLAP_EXT_AUDIO_PORTS_CONFIG_INFO_COMPAT : String :=
  "clap.audio-ports-config-info/draft-0"

def CLAP_EXT_SURROUND : String := "clap.surround/4"

def CLAP_EXT_SURROUND_COMPAT : String := "clap.surround.draft/4"

def CLAP_EXT_VOICE_INFO : String := "clap.voice-info"

def CLAP_EXT_PRESET_LOAD : String := "clap.preset-load/2"

def CLAP_EXT_TRACK_INFO : String := "clap.track-info/1"

def CLAP_EXT_TRACK_INFO_COMPAT : String := "clap.track-info.draft/1"

def CLAP_EXT_PARAM_INDICATION : String := "clap.param-indication/4"

def CLAP_EXT_PARAM_INDICATION_COMPAT : String := "clap.param-indication.draft/4"

def CLAP_EXT_CONTEXT_MENU : String := "clap.context-menu/1"

def CLAP_EXT_CONTEXT_MENU_COMPAT : String := "clap.context-menu.draft/0"

def CLAP_EXT_REMOTE_CONTROLS : String := "clap.remote-controls/2"

def CLAP_EXT_REMOTE_CONTROLS_COMPAT : String := "clap.remote-controls.draft/2"

def CLAP_EXT_NOTE_NAME : String := "clap.note-name"

def CLAP_EXT_AMBISONIC : String := "clap.ambisonic/3"

def CLAP_EXT_AMBISONIC_COMPAT : String := "clap.ambisonic.draft/3"

def CLAP_EXT_AUDIO_PORTS_ACTIVATION : String := "clap.audio-ports-activation/2"

def CLAP_EXT_AUDIO_PORTS_ACTIVATION_COMPAT : String :=
  "clap.audio-ports-activation/draft-2"

/-- The extension tables the bridge can hand out: the static forwarding
tables defined in bridge.c (constructor names match the C statics), or a
pointer obtained from the Go fallback ClapGo_PluginGetExtension. -/
inductive ExtTable
  | s_params_extension
  | s_state_extension
  | s_state_context_extension
  | s_audio_ports_extension
  | s_note_ports_extension
  | s_latency_extension
  | s_tail_extension
  | s_timer_support_extension
  | s_audio_ports_config_extension
  | s_audio_ports_config_info_extension
  | s_surround_extension
  | s_voice_info_extension
  | s_preset_load_extension
  | s_track_info_extension
  | s_param_indication_extension
  | s_context_menu_extension
  | s_remote_controls_extension
  | s_note_name_extension
  | s_ambisonic_extension
  | s_audio_ports_activation_extension
  | goExt (p : Nat)
deriving DecidableEq, Repr

/-- The Go-side fallback ClapGo_PluginGetExtension, modelled as a pure
function of the opaque Go instance and the id (`none` = it returned NULL).
Per the spec the module's capability set is fixed at load, so the fallback
has no mutable state to read. -/
def GoExtFn : Type := Nat → String → Option Nat

/-- clapgo_plugin_get_extension (bridge.c:748-958): the capability
dispatcher.  Null plugin, null id, null plugin_data or null go_instance
short-circuit to NULL; then the id is compared against each extension id in
source order, each branch being gated by the corresponding capability flag
except audio-ports, which is unconditionally the built-in table; unknown ids
fall through to the Go module. -/
def clapgo_plugin_get_extension (go_get_ext : GoExtFn)
    (plugin : Option ClapPlugin) (id : Option String) : Option ExtTable :=
  match plugin, id with
  | none, _ => none
  | _, none => none
  | some p, some s =>
    match p.plugin_data with
    | none => none
    | some data =>
      match data.go_instance with
      | none => none
      | some inst =>
        if s = CLAP_EXT_PARAMS then
          if data.supports_params then some .s_params_extension else none
        else if s = CLAP_EXT_STATE then
          if data.supports_state then some .s_state_extension else none
        else if s = CLAP_EXT_STATE_CONTEXT then
          if data.supports_state_context then some .s_state_context_extension
          else none
        else if s = CLAP_EXT_AUDIO_PORTS then
          some .s_audio_ports_extension
        else if s = CLAP_EXT_NOTE_PORTS then
          if data.supports_note_ports then some .s_note_ports_extension
          else none
        else if s = CLAP_EXT_LATENCY then
          if data.supports_latency then some .s_latency_extension else none
        else if s = CLAP_EXT_TAIL then
          if data.supports_tail then some .s_tail_extension else none
        else if s = CLAP_EXT_TIMER_SUPPORT then
          if data.supports_timer then some .s_timer_support_extension
          else none
        else if s = CLAP_EXT_AUDIO_PORTS_CONFIG then
          if data.supports_audio_ports_config then
            some .s_audio_ports_config_extension
          else none
        else if s = CLAP_EXT_AUDIO_PORTS_CONFIG_INFO ∨
            s = CLAP_EXT_AUDIO_PORTS_CONFIG_INFO_COMPAT then
          if data.supports_audio_ports_config then
            some .s_audio_ports_config_info_extension
          else none
        else if s = CLAP_EXT_SURROUND ∨ s = CLAP_EXT_SURROUND_COMPAT then
          if data.supports_surround then some .s_surround_extension else none
        else if s = CLAP_EXT_VOICE_INFO then
          if data.supports_voice_info then some .s_voice_info_extension
          else none
        else if s = CLAP_EXT_PRESET_LOAD then
          if data.supports_preset_load then some .s_preset_load_extension
          else none
        else if s = CLAP_EXT_TRACK_INFO ∨ s = CLAP_EXT_TRACK_INFO_COMPAT then
          if data.supports_track_info then some .s_track_info_extension
          else none
        else if s = CLAP_EXT_PARAM_INDICATION ∨
            s = CLAP_EXT_PARAM_INDICATION_COMPAT then
          if data.supports_param_indication then
            some .s_param_indication_extension
          else none
        else if s = CLAP_EXT_CONTEXT_MENU ∨
            s = CLAP_EXT_CONTEXT_MENU_COMPAT then
          if data.supports_context_menu then some .s_context_menu_extension
          else none
        else if s = CLAP_EXT_REMOTE_CONTROLS ∨
            s = CLAP_EXT_REMOTE_CONTROLS_COMPAT then
          if data.supports_remote_controls then
            some .s_remote_controls_extension
          else none
        else if s = CLAP_EXT_NOTE_NAME then
          if data.supports_note_name then some .s_note_name_extension
          else none
        else if s = CLAP_EXT_AMBISONIC ∨ s = CLAP_EXT_AMBISONIC_COMPAT then
          if data.supports_ambisonic then some .s_ambisonic_extension
          else none
        else if s = CLAP_EXT_AUDIO_PORTS_ACTIVATION ∨
            s = CLAP_EXT_AUDIO_PORTS_ACTIVATION_COMPAT then
          if data.supports_audio_ports_activation then
            some .s_audio_ports_activation_extension
          else none
        else
          (go_get_ext inst s).map .goExt

/-- The fixed extension ids known to the dispatcher that are gated by a
per-instance capability flag (every strcmp branch of
clapgo_plugin_get_extension except the unconditional audio-ports one). -/
inductive FixedExt
  | params
  | state
  | stateContext
  | notePorts
  | latency
  | tail
  | timer
  | audioPortsConfig
  | surround
  | voiceInfo
  | presetLoad
  | trackInfo
  | paramIndication
  | contextMenu
  | remoteControls
  | noteName
  | ambisonic
  | audioPortsActivation
deriving DecidableEq, Repr

/-- The primary CLAP id string of each flag-gated extension. -/
def fixedExtId : FixedExt → String
  | .params => CLAP_EXT_PARAMS
  | .state => CLAP_EXT_STATE
  | .stateContext => CLAP_EXT_STATE_CONTEXT
  | .notePorts => CLAP_EXT_NOTE_PORTS
  | .latency => CLAP_EXT_LATENCY
  | .tail => CLAP_EXT_TAIL
  | .timer => CLAP_EXT_TIMER_SUPPORT
  | .audioPortsConfig => CLAP_EXT_AUDIO_PORTS_CONFIG
  | .surround => CLAP_EXT_SURROUND
  | .voiceInfo => CLAP_EXT_VOICE_INFO
  | .presetLoad => CLAP_EXT_PRESET_LOAD
  | .trackInfo => CLAP_EXT_TRACK_INFO
  | .paramIndication => CLAP_EXT_PARAM_INDICATION
  | .contextMenu => CLAP_EXT_CONTEXT_MENU
  | .remoteControls => CLAP_EXT_REMOTE_CONTROLS
  | .noteName => CLAP_EXT_NOTE_NAME
  | .ambisonic => CLAP_EXT_AMBISONIC
  | .audioPortsActivation => CLAP_EXT_AUDIO_PORTS_ACTIVATION

/-- The Instance Record capability flag that gates each fixed extension id
(read off the corresponding branch of clapgo_plugin_get_extension). -/
def fixedExtFlag (d : GoPluginData) : FixedExt → Bool
  | .params => d.supports_params
  | .state => d.supports_state
  | .stateContext => d.supports_state_context
  | .notePorts => d.supports_note_ports
  | .latency => d.supports_latency
  | .tail => d.supports_tail
  | .timer => d.supports_timer
  | .audioPortsConfig => d.supports_audio_ports_config
  | .surround => d.supports_surround
  | .voiceInfo => d.supports_voice_info
  | .presetLoad => d.supports_preset_load
  | .trackInfo => d.supports_track_info
  | .paramIndication => d.supports_param_indication
  | .contextMenu => d.supports_context_menu
  | .remoteControls => d.supports_remote_controls
  | .noteName => d.supports_note_name
  | .ambisonic => d.supports_ambisonic
  | .audioPortsActivation => d.supports_audio_ports_activation

/-- The forwarding table each fixed extension id resolves to when its flag is
set. -/
def fixedExtTable : FixedExt → ExtTable
  | .params => .s_params_extension
  | .state => .s_state_extension
  | .stateContext => .s_state_context_extension
  | .notePorts => .s_note_ports_extension
  | .latency => .s_latency_extension
  | .tail => .s_tail_extension
  | .timer => .s_timer_support_extension
  | .audioPortsConfig => .s_audio_ports_config_extension
  | .surround => .s_surround_extension
  | .voiceInfo => .s_voice_info_extension
  | .presetLoad => .s_preset_load_extension
  | .trackInfo => .s_track_info_extension
  | .paramIndication => .s_param_indication_extension
  | .contextMenu => .s_context_menu_extension
  | .remoteControls => .s_remote_controls_extension
  | .noteName => .s_note_name_extension
  | .ambisonic => .s_ambisonic_extension
  | .audioPortsActivation => .s_audio_ports_activation_extension

/-- The per-extension symbol group whose pointers the instance-creation code
tests when computing a capability flag (bridge.c:272-301). -/
def flagGroupSyms : FixedExt → List Sym
  | .params => [.ClapGo_PluginParamsCount]
  | .state => [.ClapGo_PluginStateSave, .ClapGo_PluginStateLoad]
  | .stateContext =>
    [.ClapGo_PluginStateSaveWithContext, .ClapGo_PluginStateLoadWithContext]
  | .notePorts => [.ClapGo_PluginNotePortsCount, .ClapGo_PluginNotePortsGet]
  | .latency => [.ClapGo_PluginLatencyGet]
  | .tail => [.ClapGo_PluginTailGet]
  | .timer => [.ClapGo_PluginOnTimer]
  | .audioPortsConfig =>
    [.ClapGo_PluginAudioPortsConfigCount, .ClapGo_PluginAudioPortsConfigGet,
     .ClapGo_PluginAudioPortsConfigSelect]
  | .surround =>
    [.ClapGo_PluginSurroundIsChannelMaskSupported,
     .ClapGo_PluginSurroundGetChannelMap]
  | .voiceInfo => [.ClapGo_PluginVoiceInfoGet]
  | .presetLoad => [.ClapGo_PluginPresetLoadFromLocation]
  | .trackInfo => [.ClapGo_PluginTrackInfoChanged]
  | .paramIndication =>
    [.ClapGo_PluginParamIndicationSetMapping,
     .ClapGo_PluginParamIndicationSetAutomation]
  | .contextMenu =>
    [.ClapGo_PluginContextMenuPopulate, .ClapGo_PluginContextMenuPerform]
  | .remoteControls =>
    [.ClapGo_PluginRemoteControlsCount, .ClapGo_PluginRemoteControlsGet]
  | .noteName => [.ClapGo_PluginNoteNameCount, .ClapGo_PluginNoteNameGet]
  | .ambisonic =>
    [.ClapGo_PluginAmbisonicIsConfigSupported, .ClapGo_PluginAmbisonicGetConfig]
  | .audioPortsActivation =>
    [.ClapGo_PluginAudioPortsActivationCanActivateWhileProcessing,
     .ClapGo_PluginAudioPortsActivationSetActive]

/-- The Go export symbols each static forwarding table can invoke, read off
the bodies of the clapgo_* forwarding functions in bridge.c (971-1517); the
built-in audio-ports table and any table obtained from the Go fallback invoke
no ClapGo_ export. -/
def tableSyms : ExtTable → List Sym
  | .s_params_extension =>
    [.ClapGo_PluginParamsCount, .ClapGo_PluginParamsGetInfo,
     .ClapGo_PluginParamsGetValue, .ClapGo_PluginParamsValueToText,
     .ClapGo_PluginParamsTextToValue, .ClapGo_PluginParamsFlush]
  | .s_state_extension => [.ClapGo_PluginStateSave, .ClapGo_PluginStateLoad]
  | .s_state_context_extension =>
    [.ClapGo_PluginStateSaveWithContext, .ClapGo_PluginStateLoadWithContext]
  | .s_audio_ports_extension => []
  | .s_note_ports_extension =>
    [.ClapGo_PluginNotePortsCount, .ClapGo_PluginNotePortsGet]
  | .s_latency_extension => [.ClapGo_PluginLatencyGet]
  | .s_tail_extension => [.ClapGo_PluginTailGet]
  | .s_timer_support_extension => [.ClapGo_PluginOnTimer]
  | .s_audio_ports_config_extension =>
    [.ClapGo_PluginAudioPortsConfigCount, .ClapGo_PluginAudioPortsConfigGet,
     .ClapGo_PluginAudioPortsConfigSelect]
  | .s_audio_ports_config_info_extension =>
    [.ClapGo_PluginAudioPortsConfigCurrentConfig,
     .ClapGo_PluginAudioPortsConfigGetInfo]
  | .s_surround_extension =>
    [.ClapGo_PluginSurroundIsChannelMaskSupported,
     .ClapGo_PluginSurroundGetChannelMap]
  | .s_voice_info_extension => [.ClapGo_PluginVoiceInfoGet]
  | .s_preset_load_extension => [.ClapGo_PluginPresetLoadFromLocation]
  | .s_track_info_extension => [.ClapGo_PluginTrackInfoChanged]
  | .s_param_indication_extension =>
    [.ClapGo_PluginParamIndicationSetMapping,
     .ClapGo_PluginParamIndicationSetAutomation]
  | .s_context_menu_extension =>
    [.ClapGo_PluginContextMenuPopulate, .ClapGo_PluginContextMenuPerform]
  | .s_remote_controls_extension =>
    [.ClapGo_PluginRemoteControlsCount, .ClapGo_PluginRemoteControlsGet]
  | .s_note_name_extension =>
    [.ClapGo_PluginNoteNameCount, .ClapGo_PluginNoteNameGet]
  | .s_ambisonic_extension =>
    [.ClapGo_PluginAmbisonicIsConfigSupported, .ClapGo_PluginAmbisonicGetConfig]
  | .s_audio_ports_activation_extension =>
    [.ClapGo_PluginAudioPortsActivationCanActivateWhileProcessing,
     .ClapGo_PluginAudioPortsActivationSetActive]
  | .goExt _ => []

/-- The forwarding tables clapgo_plugin_get_extension can return under each
capability flag: every flag gates one table, except
supports_audio_ports_config which gates both the audio-ports-config table
and the audio-ports-config-info table (bridge.c:834-852). -/
def gatedTables : FixedExt → List ExtTable
  | .audioPortsConfig =>
    [.s_audio_ports_config_extension, .s_audio_ports_config_info_extension]
  | e => [fixedExtTable e]

/-- All Go export symbols invocable through the tables a capability flag
gates. -/
def gatedInvocableSyms (e : FixedExt) : List Sym :=
  (gatedTables e).flatMap tableSyms

/-- A concrete symbol environment: the three audio-ports-config symbols the
creation code tests are resolved, everything else (in particular
ClapGo_PluginAudioPortsConfigCurrentConfig and
ClapGo_PluginAudioPortsConfigGetInfo) is absent. -/
def envPartialApc : SymEnv := fun s =>
  match s with
  | .ClapGo_PluginAudioPortsConfigCount => true
  | .ClapGo_PluginAudioPortsConfigGet => true
  | .ClapGo_PluginAudioPortsConfigSelect => true
  | _ => false

/-- Whether a Go export symbol is declared weak in bridge.c (so genuinely
optional): the six params symbols and the two state symbols are plain extern
declarations (bridge.c:38-47, mandatory at link time), everything else is
declared with the weak attribute (bridge.c:50-113). -/
def symWeak : Sym → Bool
  | .ClapGo_PluginParamsCount => false
  | .ClapGo_PluginParamsGetInfo => false
  | .ClapGo_PluginParamsGetValue => false
  | .ClapGo_PluginParamsValueToText => false
  | .ClapGo_PluginParamsTextToValue => false
  | .ClapGo_PluginParamsFlush => false
  | .ClapGo_PluginStateSave => false
  | .ClapGo_PluginStateLoad => false
  | _ => true

/-- CLAP_PORT_STEREO, from the external CLAP headers. -/
def CLAP_PORT_STEREO : String := "stereo"

/-- CLAP_AUDIO_PORT_IS_MAIN, from the external CLAP headers. -/
def CLAP_AUDIO_PORT_IS_MAIN : Nat := 1

/-- clap_audio_port_info_t as the bridge fills it. -/
structure AudioPortInfo where
  id : Nat
  name : String
  flags : Nat
  channel_count : Nat
  port_type : String
  in_place_pair : Nat
deriving DecidableEq, Repr

/-- clapgo_audio_ports_count (bridge.c:718-724): returns 1 for either
direction, ignoring the plugin. -/
def clapgo_audio_ports_count (plugin : Option ClapPlugin)
    (is_input : Bool) : Nat :=
  1

/-- clapgo_audio_ports_info (bridge.c:727-745): fails for any index other
than 0 (or a null out-buffer, which is the `none` result seen by a caller
that passed none), otherwise fills the default main stereo port; the plugin
argument is ignored. -/
def clapgo_audio_ports_info (plugin : Option ClapPlugin) (index : Nat)
    (is_input : Bool) : Option AudioPortInfo :=
  if index ≠ 0 then none
  else some
    { id := 0
      name := if is_input then "Audio Input" else "Audio Output"
      flags := CLAP_AUDIO_PORT_IS_MAIN
      channel_count := 2
      port_type := CLAP_PORT_STEREO
      in_place_pair := 0 }

/-- An instance record whose capability flags are all clear (a module that
resolved none of the optional exports). -/
def noCapabilityData (inst : Nat) : GoPluginData where
  go_instance := some inst
  descriptor := none
  manifest_index := 0
  supports_params := false
  supports_note_ports := false
  supports_state := false
  supports_latency := false
  supports_tail := false
  supports_timer := false
  supports_audio_ports_config := false
  supports_surround := false
  supports_voice_info := false
  supports_state_context := false
  supports_preset_load := false
  supports_track_info := false
  supports_param_indication := false
  supports_context_menu := false
  supports_remote_controls := false
  supports_note_name := false
  supports_ambisonic := false
  supports_audio_ports_activation := false

/-- The Go-side lifecycle entry points the bridge callbacks forward to
(bridge.c:26-35), abstracted over an opaque Go-side state type σ: each takes
the opaque instance handle, its C arguments and the current Go state, and
returns its C result together with the next Go state.  The activate sample
rate (a C double that is only forwarded, never computed with) is carried as
its raw bits. -/
structure GoSem (σ : Type) where
  ClapGo_PluginInit : Nat → σ → Bool × σ
  ClapGo_PluginActivate : Nat → Nat → Nat → Nat → σ → Bool × σ
  ClapGo_PluginDeactivate : Nat → σ → σ
  ClapGo_PluginStartProcessing : Nat → σ → Bool × σ
  ClapGo_PluginStopProcessing : Nat → σ → σ
  ClapGo_PluginReset : Nat → σ → σ
  ClapGo_PluginProcess : Nat → Nat → σ → Int × σ
  ClapGo_PluginOnMainThread : Nat → σ → σ

/-- One host call into the bridge after creation (destroy, which ends the
instance's lifetime, is terminal and not an op on a live instance). -/
inductive BridgeOp
  | opInit
  | opActivate (sample_rate_bits min_frames max_frames : Nat)
  | opDeactivate
  | opStartProcessing
  | opStopProcessing
  | opReset
  | opProcess (process : Option Nat)
  | opOnMainThread
  | opGetExtension (id : Option String)

/-- The joint effect of one bridge callback on the instance record and the
Go-side state, translated from clapgo_plugin_init / activate / deactivate /
start_processing / stop_processing / reset / process / on_main_thread /
get_extension (bridge.c:437-531, 748-969): every callback bails out before
calling Go when go_instance is null, forwards to the Go entry point
otherwise, and no callback body contains a store to any field of the
go_plugin_data_t record — which is why each arm returns `d` itself. -/
def clapgo_lifecycle_step {σ : Type} (go : GoSem σ) (d : GoPluginData)
    (op : BridgeOp) (s : σ) : GoPluginData × σ :=
  match d.go_instance with
  | none => (d, s)
  | some i =>
    match op with
    | .opInit => (d, (go.ClapGo_PluginInit i s).2)
    | .opActivate sr mn mx => (d, (go.ClapGo_PluginActivate i sr mn mx s).2)
    | .opDeactivate => (d, go.ClapGo_PluginDeactivate i s)
    | .opStartProcessing => (d, (go.ClapGo_PluginStartProcessing i s).2)
    | .opStopProcessing => (d, go.ClapGo_PluginStopProcessing i s)
    | .opReset => (d, go.ClapGo_PluginReset i s)
    | .opProcess proc =>
      match proc with
      | some procPtr => (d, (go.ClapGo_PluginProcess i procPtr s).2)
      | none => (d, s)
    | .opOnMainThread => (d, go.ClapGo_PluginOnMainThread i s)
    | .opGetExtension _ => (d, s)

/-- Run a sequence of host calls against a live instance. -/
def runLifecycleOps {σ : Type} (go : GoSem σ) (ops : List BridgeOp)
    (d : GoPluginData) (s : σ) : GoPluginData × σ :=
  match ops with
  | [] => (d, s)
  | op :: rest =>
    runLifecycleOps go rest (clapgo_lifecycle_step go d op s).1
      (clapgo_lifecycle_step go d op s).2

/-- CLAP_PROCESS_ERROR, from the external CLAP headers. -/
def CLAP_PROCESS_ERROR : Int := 0

/-- CLAP_PROCESS_CONTINUE, from the external CLAP headers. -/
def CLAP_PROCESS_CONTINUE : Int := 1

/-- Modelled from the spec: the per-instance lifecycle states of the
state machine in section 4.4 (`Created → Initialized → Activated →
Processing ⇄ (Deactivated) → Destroyed`); the Go code that carries this
state is not under src/. -/
inductive LifeState
  | created
  | initialized
  | activated
  | processing
  | destroyed
deriving DecidableEq, Repr

/-- The lifecycle calls of the state machine in spec section 4.4. -/
inductive LifeOp
  | opInit
  | opActivate
  | opStartProcessing
  | opStopProcessing
  | opDeactivate
  | opReset
  | opProcess
  | opDestroy
deriving DecidableEq, Repr

/-- Modelled from the spec: which lifecycle call is valid in which state
(spec section 4.4; the Go code enforcing this is not under src/): init from
Created, activate from Initialized, startProcessing from Activated,
stopProcessing from Processing, deactivate from Activated, reset in any
non-Destroyed state, destroy anywhere, and the audio process call while
Processing. -/
def lifeValid : LifeState → LifeOp → Bool
  | .created, .opInit => true
  | .initialized, .opActivate => true
  | .activated, .opStartProcessing => true
  | .processing, .opStopProcessing => true
  | .activated, .opDeactivate => true
  | .processing, .opProcess => true
  | s, .opReset => !(s == .destroyed)
  | _, .opDestroy => true
  | _, _ => false

/-- Modelled from the spec: the target state of each valid lifecycle call
(spec section 4.4). -/
def lifeTarget : LifeState → LifeOp → LifeState
  | _, .opInit => .initialized
  | _, .opActivate => .activated
  | _, .opStartProcessing => .processing
  | _, .opStopProcessing => .activated
  | _, .opDeactivate => .initialized
  | s, .opReset => s
  | s, .opProcess => s
  | _, .opDestroy => .destroyed

/-- Modelled from the spec: a lifecycle call outside its valid state is
rejected with a recoverable failure return and leaves the state unchanged
(spec sections 4.4 and 7); a valid call reports success and moves to the
target state. -/
def goLifeStep (s : LifeState) (op : LifeOp) : Bool × LifeState :=
  if lifeValid s op then (true, lifeTarget s op) else (false, s)

/-- Modelled from the spec: the Go-side ClapGo_PluginProcess (not under
src/), which reports CLAP_PROCESS_ERROR without changing state unless the
instance is processing. -/
def ClapGo_PluginProcess_spec (s : LifeState) : Int × LifeState :=
  if lifeValid s .opProcess then (CLAP_PROCESS_CONTINUE, s)
  else (CLAP_PROCESS_ERROR, s)

/-- clapgo_plugin_process (bridge.c:523-531) composed with the spec-modelled
Go process entry: a null plugin, null process block, null plugin_data or
null go_instance short-circuits to CLAP_PROCESS_ERROR, otherwise the call is
forwarded to the Go side. -/
def clapgo_plugin_process_model (plugin : Option ClapPlugin)
    (process : Option Nat) (s : LifeState) : Int × LifeState :=
  match plugin, process with
  | none, _ => (CLAP_PROCESS_ERROR, s)
  | _, none => (CLAP_PROCESS_ERROR, s)
  | some p, some _ =>
    match p.plugin_data with
    | none => (CLAP_PROCESS_ERROR, s)
    | some d =>
      match d.go_instance with
      | none => (CLAP_PROCESS_ERROR, s)
      | some _ => ClapGo_PluginProcess_spec s

/-- MAX_FEATURES (manifest.h:9). -/
def MAX_FEATURES : Nat := 32

/-- MAX_EXTENSIONS (manifest.h:12). -/
def MAX_EXTENSIONS : Nat := 16

/-- MAX_PARAMETERS (manifest.h:15). -/
def MAX_PARAMETERS : Nat := 128

/-- plugin_manifest_t (manifest.h:40-69).  The fixed char arrays become
Strings that the loader truncates to the array capacity minus one;
the feature entries are `Option String` because the loader leaves a
non-string JSON array element as a NULL pointer; the fixed-size extension
and parameter arrays become lists paired with the counts the loader sets
(the per-parameter numeric payload is C doubles, which no claim touches, so
parameters are carried only as their count). -/
structure PluginManifest where
  schema_version : String
  id : String
  name : String
  vendor : String
  version : String
  description : String
  url : String
  manual_url : String
  support_url : String
  features : List (Option String)
  feature_count : Nat
  go_shared_library : String
  extensions : List (String × Bool)
  extension_count : Nat
  parameter_count : Nat
deriving DecidableEq, Repr

/-- manifest_init (manifest.c:12-22): zero the record, then set the schema
version and the three default URLs. -/
def manifest_init_m : PluginManifest where
  schema_version := "1.0"
  id := ""
  name := ""
  vendor := ""
  version := ""
  description := ""
  url := "https://github.com/justyntemme/clapgo"
  manual_url := "https://github.com/justyntemme/clapgo"
  support_url := "https://github.com/justyntemme/clapgo/issues"
  features := []
  feature_count := 0
  go_shared_library := ""
  extensions := []
  extension_count := 0
  parameter_count := 0

/-- One parsed manifest JSON document, as json-c hands it to the loader:
each field the loader looks up is `none` when the key is absent (or
json_object_get_string returned NULL); a feature entry is `none` when the
array element is not a string; an extension entry carries its optional id
and supported fields; parameters appear only as the array of entries whose
payload the loader copies (modelled as units, no claim reads them). -/
structure ManifestDoc where
  schemaVersion : Option String
  id : Option String
  name : Option String
  vendor : Option String
  version : Option String
  description : Option String
  url : Option String
  manualUrl : Option String
  supportUrl : Option String
  features : Option (List (Option String))
  goSharedLibrary : Option String
  extensions : Option (List (Option String × Option Bool))
  parameters : Option (List Unit)

/-- strncpy/snprintf-style truncation to n characters, done on the character
list (byte length and character length coincide for the ASCII manifest and
path data involved). -/
def strTake (n : Nat) (s : String) : String := String.mk (s.toList.take n)

/-- strncpy of an optional JSON string into a field of capacity cap+1 bytes
(the record was zeroed, so the copy is truncation to cap characters); an
absent value leaves the field's previous contents. -/
def strncpyField (cap : Nat) (old : String) (v : Option String) : String :=
  match v with
  | some s => strTake cap s
  | none => old

/-- manifest_load_from_file (manifest.c:24-257) given the parse result of
the file (`none` = json_object_from_file failed): populate the initialized
record field by field, cap the feature/extension/parameter counts at their
array sizes, then validate that id, name, vendor, version and the module
location are non-empty — returning false (with the record as filled so far)
when the parse failed or a required field is missing or empty. -/
def manifest_load_from_file (doc : Option ManifestDoc) : Bool × PluginManifest :=
  match doc with
  | none => (false, manifest_init_m)
  | some d =>
    let m : PluginManifest :=
      { schema_version :=
          strncpyField 31 manifest_init_m.schema_version d.schemaVersion
        id := strncpyField 255 manifest_init_m.id d.id
        name := strncpyField 255 manifest_init_m.name d.name
        vendor := strncpyField 255 manifest_init_m.vendor d.vendor
        version := strncpyField 63 manifest_init_m.version d.version
        description :=
          strncpyField 1023 manifest_init_m.description d.description
        url := strncpyField 511 manifest_init_m.url d.url
        manual_url := strncpyField 511 manifest_init_m.manual_url d.manualUrl
        support_url :=
          strncpyField 511 manifest_init_m.support_url d.supportUrl
        go_shared_library :=
          strncpyField 255 manifest_init_m.go_shared_library d.goSharedLibrary
        features :=
          match d.features with
          | some l => l.take (min l.length MAX_FEATURES)
          | none => manifest_init_m.features
        feature_count :=
          match d.features with
          | some l => min l.length MAX_FEATURES
          | none => manifest_init_m.feature_count
        extensions :=
          match d.extensions with
          | some l => (l.take (min l.length MAX_EXTENSIONS)).map
              (fun e => (strncpyField 255 "" e.1, e.2.getD false))
          | none => manifest_init_m.extensions
        extension_count :=
          match d.extensions with
          | some l => min l.length MAX_EXTENSIONS
          | none => manifest_init_m.extension_count
        parameter_count :=
          match d.parameters with
          | some l => min l.length MAX_PARAMETERS
          | none => manifest_init_m.parameter_count }
    if m.id = "" ∨ m.name = "" ∨ m.vendor = "" ∨ m.version = "" ∨
        m.go_shared_library = "" then
      (false, m)
    else
      (true, m)

/-- The allocation oracle: attempt n (calloc or strdup, in program order)
succeeds iff the oracle holds at n. -/
def Alloc : Type := Nat → Bool

/-- strdup of a (non-null) C string under the allocation oracle: one
allocation attempt; on failure the copy is NULL. -/
def strdup_m (a : Alloc) (k : Nat) (s : String) : Option String × Nat :=
  (if a k then some s else none, k + 1)

/-- The feature-copy loop of manifest_to_descriptor (manifest.c:285-287):
features[i] = strdup(manifest->plugin.features[i]), with no check of the
result.  A NULL source entry would be strdup(NULL) — undefined behavior in
C — modelled as copying the NULL without an allocation attempt. -/
def copyDeclaredFeatures (a : Alloc) (k : Nat) :
    List (Option String) → List (Option String) × Nat
  | [] => ([], k)
  | none :: rest =>
    let t := copyDeclaredFeatures a k rest
    (none :: t.1, t.2)
  | some s :: rest =>
    let c := strdup_m a k s
    let t := copyDeclaredFeatures a c.2 rest
    (c.1 :: t.1, t.2)

/-- manifest_to_descriptor (manifest.c:259-306): calloc the descriptor
(returning NULL only if that fails), then strdup the eight string fields
with no result checks, then either copy the declared features (when
feature_count > 0) or substitute the default audio-effect/stereo/mono tag
set — in both cases leaving features NULL if the array calloc fails — and
return the descriptor.  The clap_version triple the C code also sets
involves no allocation and no claim, and is not carried. -/
def manifest_to_descriptor (a : Alloc) (k : Nat) (m : PluginManifest) :
    Option CDescriptor × Nat :=
  if a k = false then (none, k + 1)
  else
    let r1 := strdup_m a (k + 1) m.id
    let r2 := strdup_m a r1.2 m.name
    let r3 := strdup_m a r2.2 m.vendor
    let r4 := strdup_m a r3.2 m.url
    let r5 := strdup_m a r4.2 m.manual_url
    let r6 := strdup_m a r5.2 m.support_url
    let r7 := strdup_m a r6.2 m.version
    let r8 := strdup_m a r7.2 m.description
    let base : CDescriptor :=
      { id := r1.1, name := r2.1, vendor := r3.1, url := r4.1
        manual_url := r5.1, support_url := r6.1, version := r7.1
        description := r8.1, features := none }
    if 0 < m.feature_count then
      if a r8.2 then
        let fs := copyDeclaredFeatures a (r8.2 + 1)
          (m.features.take m.feature_count)
        (some { base with features := some fs.1 }, fs.2)
      else
        (some base, r8.2 + 1)
    else
      if a r8.2 then
        let f1 := strdup_m a (r8.2 + 1) "audio-effect"
        let f2 := strdup_m a f1.2 "stereo"
        let f3 := strdup_m a f2.2 "mono"
        (some { base with features := some [f1.1, f2.1, f3.1] }, f3.2)
      else
        (some base, r8.2 + 1)

/-- deep_copy_string (plugin.c:58-61): NULL input gives NULL with no
allocation attempt, otherwise strdup. -/
def deep_copy_string (a : Alloc) (k : Nat) :
    Option String → Option String × Nat
  | none => (none, k)
  | some s => strdup_m a k s

/-- The eight string-field copies of create_descriptor_copy
(plugin.c:104-127), with their running allocation counter; the results are
left as they came out, exactly as the C code stores them without checking. -/
def copyDescStrings (a : Alloc) (k : Nat) (src : CDescriptor) :
    CDescriptor × Nat :=
  let r1 := deep_copy_string a k src.id
  let r2 := deep_copy_string a r1.2 src.name
  let r3 := deep_copy_string a r2.2 src.vendor
  let r4 := deep_copy_string a r3.2 src.url
  let r5 := deep_copy_string a r4.2 src.manual_url
  let r6 := deep_copy_string a r5.2 src.support_url
  let r7 := deep_copy_string a r6.2 src.version
  let r8 := deep_copy_string a r7.2 src.description
  ({ id := r1.1, name := r2.1, vendor := r3.1, url := r4.1
     manual_url := r5.1, support_url := r6.1, version := r7.1
     description := r8.1, features := none }, r8.2)

/-- The feature-copy loop of create_descriptor_copy (plugin.c:150-162):
each feature is deep-copied, and a failed copy of a non-null source entry
(`!features[i] && src->features[i]`) aborts, frees everything copied so far
and makes the whole copy fail. -/
def copyFeaturesStrict (a : Alloc) (k : Nat) :
    List (Option String) → Option (List (Option String)) × Nat
  | [] => (some [], k)
  | e :: rest =>
    let c := deep_copy_string a k e
    if c.1.isNone && e.isSome then (none, c.2)
    else
      let t := copyFeaturesStrict a c.2 rest
      match t.1 with
      | none => (none, t.2)
      | some cs => (some (c.1 :: cs), t.2)

/-- create_descriptor_copy (plugin.c:90-169): NULL source or failed
descriptor calloc give NULL; the eight string fields are deep-copied without
result checks; a present source feature array is copied strictly — a failed
array calloc or a failed feature copy releases the partial descriptor and
returns NULL (the rollback path), while with no source features the
descriptor is returned as is (string-copy failures included). -/
def create_descriptor_copy (a : Alloc) (k : Nat) (src : Option CDescriptor) :
    Option CDescriptor × Nat :=
  match src with
  | none => (none, k)
  | some srcd =>
    if a k = false then (none, k + 1)
    else
      let cs := copyDescStrings a (k + 1) srcd
      match srcd.features with
      | none => (some cs.1, cs.2)
      | some l =>
        if a cs.2 = false then (none, cs.2 + 1)
        else
          let fs := copyFeaturesStrict a (cs.2 + 1) l
          match fs.1 with
          | none => (none, fs.2)
          | some copies => (some { cs.1 with features := some copies }, fs.2)

/-- A descriptor is fully populated when every string field and every
feature entry is a non-null copy: the spec's "fully populated descriptor"
(spec section 4.3), stated from the spec's words for comparison with what
the synthesizer returns. -/
def specFullyPopulated (d : CDescriptor) : Bool :=
  d.id.isSome && d.name.isSome && d.vendor.isSome && d.url.isSome &&
  d.manual_url.isSome && d.support_url.isSome && d.version.isSome &&
  d.description.isSome &&
  (match d.features with
   | some l => l.all Option.isSome
   | none => false)

/-- The always-succeeding allocator. -/
def allocOk : Alloc := fun _ => true

/-- The always-failing allocator. -/
def allocNone : Alloc := fun _ => false

/-- An allocator whose second attempt (attempt number 1, the strdup of the
descriptor id in manifest_to_descriptor) fails while every other attempt
succeeds. -/
def allocFailAt1 : Alloc := fun n => n != 1

/-- A concrete valid manifest (features empty, so descriptor synthesis takes
the default-tag branch). -/
def manifestGain : PluginManifest :=
  { manifest_init_m with
    id := "com.example.gain"
    name := "Test Plugin"
    vendor := "Vendor"
    version := "1.0.0"
    go_shared_library := "libgain.so" }

/-- The all-NULL descriptor. -/
def emptyDescriptor : CDescriptor :=
  { id := none, name := none, vendor := none, url := none, manual_url := none
    support_url := none, version := none, description := none
    features := none }

/-- manifest_plugin_entry_t (bridge.c:14-18): one registry slot, holding the
loaded manifest, the lazily synthesized descriptor and the loaded flag. -/
structure ManifestPluginEntry where
  manifest : PluginManifest
  descriptor : Option CDescriptor
  loaded : Bool
deriving DecidableEq, Repr

/-- The process environment the discovery code consults: access(path, R_OK)
as `readable`, json_object_from_file as `docs` (none = unreadable or
unparsable), and the HOME variable. -/
structure FsEnv where
  readable : String → Bool
  docs : String → Option ManifestDoc
  home : Option String

/-- The characters of a path after its last slash (strrchr at
bridge.c:124-129); the whole path when it has no slash. -/
def afterLastSlash (s : String) : String :=
  String.mk (s.toList.foldl (fun acc c => if c = '/' then [] else acc ++ [c]) [])

/-- dirname(3) as bridge.c uses it on the host-supplied plugin path (a path
with a file component and no trailing slash): everything before the last
slash, "/" when that is empty, "." when the path has no slash. -/
def dirname_m (s : String) : String :=
  let l := s.toList
  if l.contains '/' then
    let d := ((l.reverse.dropWhile (fun c => c ≠ '/')).drop 1).reverse
    if d.isEmpty then "/" else String.mk d
  else "."

/-- The plugin-name extraction of clapgo_find_manifests (bridge.c:131-141):
strip a trailing ".clap" when the file name is longer than 5 characters,
otherwise copy at most 255 characters of the file name. -/
def stripClapSuffix (file : String) : String :=
  if 5 < file.length ∧ file.endsWith ".clap" then
    strTake (file.length - 5) file
  else strTake 255 file

/-- snprintf into a 512-byte buffer: truncation to 511 characters. -/
def snprintf511 (s : String) : String := strTake 511 s

/-- The same-directory manifest path tried first
(bridge.c:149-151): dirname(plugin_path)/plugin_name.json. -/
def manifestPathSameDir (plugin_path : String) : String :=
  snprintf511 (dirname_m plugin_path ++ "/" ++
    stripClapSuffix (afterLastSlash plugin_path) ++ ".json")

/-- The installed-location manifest path tried second (bridge.c:157-160):
HOME/.clap/plugin_name/plugin_name.json. -/
def manifestPathInstalled (home plugin_path : String) : String :=
  snprintf511 (home ++ "/.clap/" ++
    stripClapSuffix (afterLastSlash plugin_path) ++ "/" ++
    stripClapSuffix (afterLastSlash plugin_path) ++ ".json")

/-- The discovery policy of clapgo_find_manifests (bridge.c:145-167): take
the same-directory path if readable, else the installed path if HOME is set
and that is readable, else nothing. -/
def manifestSearchPath (fs : FsEnv) (plugin_path : String) : Option String :=
  if fs.readable (manifestPathSameDir plugin_path) then
    some (manifestPathSameDir plugin_path)
  else
    match fs.home with
    | some home =>
      if fs.readable (manifestPathInstalled home plugin_path) then
        some (manifestPathInstalled home plugin_path)
      else none
    | none => none

/-- clapgo_find_manifests (bridge.c:116-187): clear the registry, search for
the manifest, and when one is found and loads successfully install it as the
single registry entry (not loaded, no descriptor); on no manifest or a
failed load the registry stays empty. -/
def clapgo_find_manifests (fs : FsEnv) (plugin_path : String) :
    List ManifestPluginEntry :=
  match manifestSearchPath fs plugin_path with
  | none => []
  | some p =>
    match manifest_load_from_file (fs.docs p) with
    | (true, m) => [{ manifest := m, descriptor := none, loaded := false }]
    | (false, _) => []

/-- clapgo_init (bridge.c:331-351): find the manifest for this plugin; a
manifest is mandatory, so an empty registry fails initialization. -/
def clapgo_init_m (fs : FsEnv) (plugin_path : String) :
    Bool × List ManifestPluginEntry :=
  let reg := clapgo_find_manifests fs plugin_path
  if reg.length = 0 then (false, reg) else (true, reg)

/-- clapgo_load_manifest_plugin (bridge.c:190-219): reject an out-of-range
index; an already-loaded entry with a descriptor is done; otherwise
synthesize the descriptor from the manifest, failing (entry unchanged) when
synthesis fails, and caching it with the loaded mark on success.  (The C
index is an int whose negative values are rejected by the same bounds test;
the embedding uses Nat.) -/
def clapgo_load_manifest_plugin (a : Alloc) (k : Nat)
    (reg : List ManifestPluginEntry) (index : Nat) :
    Bool × List ManifestPluginEntry × Nat :=
  if h : index < reg.length then
    let e := reg.get ⟨index, h⟩
    if e.loaded && e.descriptor.isSome then (true, reg, k)
    else
      let r := manifest_to_descriptor a k e.manifest
      match r.1 with
      | none => (false, reg, r.2)
      | some dsc =>
        (true, reg.set index { e with descriptor := some dsc, loaded := true },
          r.2)
  else (false, reg, k)

/-- clapgo_get_plugin_descriptor (bridge.c:399-411): NULL for an index at or
past the registry size; otherwise load lazily if needed and return the
entry's descriptor (NULL when the lazy load fails). -/
def clapgo_get_plugin_descriptor_m (a : Alloc) (k : Nat)
    (reg : List ManifestPluginEntry) (index : Nat) :
    Option CDescriptor × List ManifestPluginEntry × Nat :=
  if h : index < reg.length then
    let e := reg.get ⟨index, h⟩
    if e.loaded then (e.descriptor, reg, k)
    else
      let r := clapgo_load_manifest_plugin a k reg index
      match r.1, r.2.1[index]? with
      | true, some e2 => (e2.descriptor, r.2.1, r.2.2)
      | _, _ => (none, r.2.1, r.2.2)
  else (none, reg, k)

/-- clapgo_get_plugin_count (bridge.c:414-416): the registry size. -/
def clapgo_get_plugin_count_m (reg : List ManifestPluginEntry) : Nat :=
  reg.length

/-- clapgo_factory_get_plugin_descriptor (plugin.c:478-482): NULL for an
index at or past plugin_count, otherwise the stored descriptor pointer
(itself possibly NULL when its deep copy had failed at startup). -/
def clapgo_factory_get_plugin_descriptor_m
    (plugin_descriptors : List (Option CDescriptor)) (index : Nat) :
    Option CDescriptor :=
  if h : index < plugin_descriptors.length then
    plugin_descriptors.get ⟨index, h⟩
  else none

/-- A document whose required name field is the empty string and whose id is
absent; the other identity fields are present and non-empty. -/
def docMissingId : ManifestDoc where
  schemaVersion := some "1.0"
  id := none
  name := some "Some Plugin"
  vendor := some "Vendor"
  version := some "1.0.0"
  description := some "d"
  url := none
  manualUrl := none
  supportUrl := none
  features := none
  goSharedLibrary := some "libgain.so"
  extensions := none
  parameters := none

/-- A filesystem in which every path is readable and parses to the
id-less document. -/
def fsAllMissingId : FsEnv where
  readable := fun _ => true
  docs := fun _ => some docMissingId
  home := none

/-- A filesystem with no readable path and no HOME. -/
def fsNothing : FsEnv where
  readable := fun _ => false
  docs := fun _ => none
  home := none

/-- A one-entry registry holding the concrete manifest, not yet loaded. -/
def entryGain : ManifestPluginEntry where
  manifest := manifestGain
  descriptor := none
  loaded := false

/-- The descriptor that synthesizing manifestGain under the always-succeeding
allocator produces. -/
def gainDescriptor : CDescriptor where
  id := some "com.example.gain"
  name := some "Test Plugin"
  vendor := some "Vendor"
  url := some "https://github.com/justyntemme/clapgo"
  manual_url := some "https://github.com/justyntemme/clapgo"
  support_url := some "https://github.com/justyntemme/clapgo/issues"
  version := some "1.0.0"
  description := some ""
  features := some [some "audio-effect", some "stereo", some "mono"]

end Clapgo

namespace Clapgo

/-- Whenever the instance is not in the Processing state, the process entry
point reports CLAP_PROCESS_ERROR and leaves the state unchanged, on every
null-guard path and on the forwarded path alike. -/
theorem process_model_not_processing (plugin : Option ClapPlugin)
    (process : Option Nat) (s : LifeState)
    (h : lifeValid s LifeOp.opProcess = false) :
    clapgo_plugin_process_model plugin process s = (CLAP_PROCESS_ERROR, s) := by
  rcases plugin with _ | ⟨pd⟩ <;> rcases process with _ | q
  · rfl
  · rfl
  · rfl
  · rcases pd with _ | d
    · rfl
    · rcases hgi : d.go_instance with _ | i
      · simp [clapgo_plugin_process_model, hgi]
      · simp [clapgo_plugin_process_model, hgi, ClapGo_PluginProcess_spec, h]

end Clapgo

namespace Clapgo

/-- No bridge callback writes to the instance record. -/
theorem clapgo_lifecycle_step_fst {σ : Type} (go : GoSem σ)
    (d : GoPluginData) (op : BridgeOp) (s : σ) :
    (clapgo_lifecycle_step go d op s).1 = d := by
  rcases hgi : d.go_instance with _ | i
  · cases op <;> simp [clapgo_lifecycle_step, hgi]
  · cases op
    case opProcess proc => cases proc <;> simp [clapgo_lifecycle_step, hgi]
    all_goals simp [clapgo_lifecycle_step, hgi]

end Clapgo

namespace Clapgo

/-- C1: for a created instance and each fixed flag-gated extension id, the
dispatcher returns the corresponding static table when the instance's
capability flag is set and NULL when it is clear; the result does not depend
on the Go fallback (quantified arbitrarily), i.e. the flag alone decides. -/
theorem C1_capability_gate (g : GoExtFn) (d : GoPluginData) (inst : Nat) (e : FixedExt) :
    clapgo_plugin_get_extension g
      (some ⟨some { d with go_instance := some inst }⟩) (some (fixedExtId e)) =
      (if fixedExtFlag d e then some (fixedExtTable e) else none) := by
  cases e <;>
    simp [clapgo_plugin_get_extension, fixedExtId, fixedExtFlag, fixedExtTable,
      CLAP_EXT_PARAMS, CLAP_EXT_STATE, CLAP_EXT_STATE_CONTEXT,
      CLAP_EXT_AUDIO_PORTS, CLAP_EXT_NOTE_PORTS, CLAP_EXT_LATENCY,
      CLAP_EXT_TAIL, CLAP_EXT_TIMER_SUPPORT, CLAP_EXT_AUDIO_PORTS_CONFIG,
      CLAP_EXT_AUDIO_PORTS_CONFIG_INFO, CLAP_EXT_AUDIO_PORTS_CONFIG_INFO_COMPAT,
      CLAP_EXT_SURROUND, CLAP_EXT_SURROUND_COMPAT, CLAP_EXT_VOICE_INFO,
      CLAP_EXT_PRESET_LOAD, CLAP_EXT_TRACK_INFO, CLAP_EXT_TRACK_INFO_COMPAT,
      CLAP_EXT_PARAM_INDICATION, CLAP_EXT_PARAM_INDICATION_COMPAT,
      CLAP_EXT_CONTEXT_MENU, CLAP_EXT_CONTEXT_MENU_COMPAT,
      CLAP_EXT_REMOTE_CONTROLS, CLAP_EXT_REMOTE_CONTROLS_COMPAT,
      CLAP_EXT_NOTE_NAME, CLAP_EXT_AMBISONIC, CLAP_EXT_AMBISONIC_COMPAT,
      CLAP_EXT_AUDIO_PORTS_ACTIVATION, CLAP_EXT_AUDIO_PORTS_ACTIVATION_COMPAT]

end Clapgo

namespace Clapgo

/-- C2 counterexample: with only the three tested audio-ports-config symbols
resolved, the capability flag computed at creation is true although
ClapGo_PluginAudioPortsConfigCurrentConfig — a symbol the forwarding tables
gated by that very flag can invoke — did not resolve.  So a true flag does
not mean every symbol of the extension's invocable group resolved, contrary
to the claim. -/
theorem C2_counterexample :
    fixedExtFlag (create_plugin_capability_flags envPartialApc 0 0 none)
      FixedExt.audioPortsConfig = true ∧
    Sym.ClapGo_PluginAudioPortsConfigCurrentConfig ∈
      gatedInvocableSyms FixedExt.audioPortsConfig ∧
    envPartialApc Sym.ClapGo_PluginAudioPortsConfigCurrentConfig = false := by
  decide

/-- C2 amended: each capability flag computed at creation is true iff every
symbol in the group the creation code actually tests resolved (so a
partially resolved tested group never yields true); and for every flag other
than audio-ports-config, each symbol invocable through the gated forwarding
tables is either in that tested group or is a mandatory non-weak export.
The audio-ports-config flag is the exception: it omits the weak
current_config and get-info symbols its config-info table can invoke. -/
theorem C2_flag_iff_tested_group (env : SymEnv) (inst : Nat) (idx : Int)
    (desc : Option CDescriptor) (e : FixedExt) :
    (fixedExtFlag (create_plugin_capability_flags env inst idx desc) e =
      (flagGroupSyms e).all (fun s => env s)) ∧
    (e = FixedExt.audioPortsConfig ∨
      ((gatedInvocableSyms e).all
        (fun s => (flagGroupSyms e).contains s || !symWeak s)) = true) := by
  constructor
  · cases e <;>
      simp [create_plugin_capability_flags, fixedExtFlag, flagGroupSyms,
        List.all_cons, List.all_nil, Bool.and_true, Bool.and_assoc]
  · cases e <;> first
      | exact Or.inl rfl
      | exact Or.inr (by decide)

end Clapgo

namespace Clapgo

/-- C6: for any instance with a non-null Go handle and any flag settings, the
dispatcher answers the audio-ports id with the bridge's own built-in table —
never delegated to the Go module (the fallback g is arbitrary) and never
null; that table reports exactly one port per direction, with 2 channels of
the stereo port type; and this is the only hard-coded capability: with every
capability flag clear, each other fixed extension id yields null. -/
theorem C6_audio_ports_builtin (g : GoExtFn) (d : GoPluginData) (inst : Nat)
    (p : Option ClapPlugin) (b : Bool) (e : FixedExt) :
    clapgo_plugin_get_extension g
      (some ⟨some { d with go_instance := some inst }⟩)
      (some CLAP_EXT_AUDIO_PORTS) = some ExtTable.s_audio_ports_extension ∧
    clapgo_audio_ports_count p b = 1 ∧
    clapgo_audio_ports_info p 0 b = some
      { id := 0
        name := if b then "Audio Input" else "Audio Output"
        flags := CLAP_AUDIO_PORT_IS_MAIN
        channel_count := 2
        port_type := CLAP_PORT_STEREO
        in_place_pair := 0 } ∧
    clapgo_plugin_get_extension g (some ⟨some (noCapabilityData inst)⟩)
      (some (fixedExtId e)) = none := by
  refine ⟨?_, rfl, rfl, ?_⟩
  · simp [clapgo_plugin_get_extension, CLAP_EXT_PARAMS, CLAP_EXT_STATE,
      CLAP_EXT_STATE_CONTEXT, CLAP_EXT_AUDIO_PORTS]
  · cases e <;>
      simp [clapgo_plugin_get_extension, fixedExtId, noCapabilityData,
        CLAP_EXT_PARAMS, CLAP_EXT_STATE, CLAP_EXT_STATE_CONTEXT,
        CLAP_EXT_AUDIO_PORTS, CLAP_EXT_NOTE_PORTS, CLAP_EXT_LATENCY,
        CLAP_EXT_TAIL, CLAP_EXT_TIMER_SUPPORT, CLAP_EXT_AUDIO_PORTS_CONFIG,
        CLAP_EXT_AUDIO_PORTS_CONFIG_INFO,
        CLAP_EXT_AUDIO_PORTS_CONFIG_INFO_COMPAT,
        CLAP_EXT_SURROUND, CLAP_EXT_SURROUND_COMPAT, CLAP_EXT_VOICE_INFO,
        CLAP_EXT_PRESET_LOAD, CLAP_EXT_TRACK_INFO, CLAP_EXT_TRACK_INFO_COMPAT,
        CLAP_EXT_PARAM_INDICATION, CLAP_EXT_PARAM_INDICATION_COMPAT,
        CLAP_EXT_CONTEXT_MENU, CLAP_EXT_CONTEXT_MENU_COMPAT,
        CLAP_EXT_REMOTE_CONTROLS, CLAP_EXT_REMOTE_CONTROLS_COMPAT,
        CLAP_EXT_NOTE_NAME, CLAP_EXT_AMBISONIC, CLAP_EXT_AMBISONIC_COMPAT,
        CLAP_EXT_AUDIO_PORTS_ACTIVATION,
        CLAP_EXT_AUDIO_PORTS_ACTIVATION_COMPAT]

end Clapgo

namespace Clapgo

/-- C8: the capability flags (indeed the whole instance record) are written
only at creation: running any sequence of host calls against a live instance
leaves the record exactly as created, so the dispatcher answers every
extension id identically on every call throughout the instance's lifetime. -/
theorem C8_flags_immutable {σ : Type} (go : GoSem σ) (ops : List BridgeOp)
    (d : GoPluginData) (s : σ) (g : GoExtFn) (id : Option String) :
    (runLifecycleOps go ops d s).1 = d ∧
    clapgo_plugin_get_extension g
      (some ⟨some (runLifecycleOps go ops d s).1⟩) id =
      clapgo_plugin_get_extension g (some ⟨some d⟩) id := by
  have h : (runLifecycleOps go ops d s).1 = d := by
    induction ops generalizing d s with
    | nil => rfl
    | cons op rest ih =>
      rw [runLifecycleOps, clapgo_lifecycle_step_fst]
      exact ih d _
  exact ⟨h, by rw [h]⟩

end Clapgo

namespace Clapgo

/-- C3: for every instance that has been created but not activated (state
Created or Initialized), the process entry point returns the recoverable
CLAP_PROCESS_ERROR status — never a crash, every null-guard path included —
and leaves the lifecycle state unchanged; and in general every lifecycle
call made outside its valid state is rejected with a failure return and an
unchanged state. -/
theorem C3_process_before_activate (plugin : Option ClapPlugin)
    (process : Option Nat) (s : LifeState)
    (h : s = LifeState.created ∨ s = LifeState.initialized) :
    clapgo_plugin_process_model plugin process s = (CLAP_PROCESS_ERROR, s) ∧
    ∀ s2 op2, lifeValid s2 op2 = false → goLifeStep s2 op2 = (false, s2) := by
  constructor
  · apply process_model_not_processing
    rcases h with h | h <;> subst h <;> rfl
  · intro s2 op2 h2
    simp [goLifeStep, h2]

/-- Witness for C3 at a concrete created instance. -/
theorem C3_process_before_activate_witness :
    (LifeState.created = LifeState.created ∨
      LifeState.created = LifeState.initialized) ∧
    clapgo_plugin_process_model (some ⟨some (noCapabilityData 7)⟩) (some 1)
      LifeState.created = (CLAP_PROCESS_ERROR, LifeState.created) :=
  ⟨Or.inl rfl,
    (C3_process_before_activate (some ⟨some (noCapabilityData 7)⟩) (some 1)
      LifeState.created (Or.inl rfl)).1⟩

end Clapgo

namespace Clapgo

/-- C4 counterexample: when the strdup of the id fails (second allocation
attempt) and every other allocation succeeds, manifest_to_descriptor still
returns a descriptor — with a NULL id next to a populated name — so
descriptor synthesis neither returns a fully populated descriptor nor an
error: a partially built descriptor is returned to the caller, contradicting
the claim. -/
theorem C4_counterexample_half_built_descriptor :
    (manifest_to_descriptor allocFailAt1 0 manifestGain).1.map
      specFullyPopulated = some false ∧
    (manifest_to_descriptor allocFailAt1 0 manifestGain).1.map
      CDescriptor.id = some none ∧
    (manifest_to_descriptor allocFailAt1 0 manifestGain).1.map
      CDescriptor.name = some (some "Test Plugin") := by
  exact ⟨rfl, rfl, rfl⟩

/-- C4 amended: descriptor synthesis (manifest_to_descriptor) returns an
error only when the very first allocation — the descriptor itself — fails,
and in that case nothing else has been allocated (the counter advanced by
exactly the one failed attempt); any later string or feature allocation
failure is undetected and leaves that field NULL in a returned, partially
built descriptor.  create_descriptor_copy likewise returns a partial
descriptor when only string-field copies fail, and rolls back to an error
exactly when the descriptor calloc, the feature-array calloc or a feature
copy fails. -/
theorem C4_amended_error_conditions (a : Alloc) (k : Nat) (m : PluginManifest)
    (src : CDescriptor) (l : List (Option String)) :
    ((manifest_to_descriptor a k m).1 = none ↔ a k = false) ∧
    (a k = false → manifest_to_descriptor a k m = (none, k + 1)) ∧
    ((create_descriptor_copy a k (some { src with features := none })).1 = none ↔
      a k = false) ∧
    ((create_descriptor_copy a k (some { src with features := some l })).1 = none ↔
      (a k = false ∨
        a (copyDescStrings a (k + 1) { src with features := some l }).2 = false ∨
        (copyFeaturesStrict a
          ((copyDescStrings a (k + 1) { src with features := some l }).2 + 1)
          l).1 = none)) := by
  refine ⟨?_, ?_, ?_, ?_⟩
  · cases hak : a k with
    | true =>
      simp only [manifest_to_descriptor, hak]
      split_ifs <;> simp_all
    | false => simp [manifest_to_descriptor, hak]
  · intro hak
    simp [manifest_to_descriptor, hak]
  · cases hak : a k <;> simp [create_descriptor_copy, hak]
  · cases hak : a k with
    | false => simp [create_descriptor_copy, hak]
    | true =>
      cases hcs : a (copyDescStrings a (k + 1) { src with features := some l }).2 with
      | false => simp [create_descriptor_copy, hak, hcs]
      | true =>
        cases hfs : (copyFeaturesStrict a
            ((copyDescStrings a (k + 1) { src with features := some l }).2 + 1)
            l).1 with
        | none => simp [create_descriptor_copy, hak, hcs, hfs]
        | some cs => simp [create_descriptor_copy, hak, hcs, hfs]

/-- Witness for the amended C4 statement: with the always-failing allocator
the synthesizer reports the error immediately, having attempted exactly one
allocation. -/
theorem C4_amended_error_conditions_witness :
    manifest_to_descriptor allocNone 0 manifestGain = (none, 1) :=
  (C4_amended_error_conditions allocNone 0 manifestGain emptyDescriptor []).2.1
    rfl

/-- Every feature of the declared list survives copying unchanged when every
allocation succeeds. -/
theorem copyDeclaredFeatures_allocOk (k : Nat) (l : List (Option String)) :
    (copyDeclaredFeatures allocOk k l).1 = l := by
  induction l generalizing k with
  | nil => rfl
  | cons e rest ih =>
    cases e with
    | none => simp [copyDeclaredFeatures, ih]
    | some s => simp [copyDeclaredFeatures, strdup_m, allocOk, ih]

/-- C9: with allocation succeeding, a manifest with an empty declared
feature-tag list synthesizes a descriptor carrying the non-empty default
audio-effect/stereo/mono tag set, and a manifest with at least one declared
tag synthesizes a descriptor carrying copies of exactly the declared tags
(the first feature_count entries); the descriptor is never feature-less. -/
theorem C9_default_features (k : Nat) (m : PluginManifest) :
    (manifest_to_descriptor allocOk k m).1.map CDescriptor.features =
      some (if 0 < m.feature_count
        then some (m.features.take m.feature_count)
        else some [some "audio-effect", some "stereo", some "mono"]) := by
  by_cases hfc : 0 < m.feature_count
  · simp [manifest_to_descriptor, allocOk, hfc, copyDeclaredFeatures_allocOk]
  · simp [manifest_to_descriptor, allocOk, strdup_m, hfc]

end Clapgo

namespace Clapgo

/-- C5: a manifest document in which any required field (id, name, vendor,
version or module location) is missing or empty fails to load, and the
registry built from a filesystem serving such a document to every path stays
empty — enumeration simply reports fewer plugins. -/
theorem C5_required_fields_reject (d : ManifestDoc) (fs : FsEnv) (p : String)
    (hmiss : d.id = none ∨ d.id = some "" ∨ d.name = none ∨ d.name = some "" ∨
      d.vendor = none ∨ d.vendor = some "" ∨
      d.version = none ∨ d.version = some "" ∨
      d.goSharedLibrary = none ∨ d.goSharedLibrary = some "")
    (hdocs : fs.docs = fun _ => some d) :
    (manifest_load_from_file (some d)).1 = false ∧
    clapgo_find_manifests fs p = [] := by
  have htake : strTake 255 "" = "" := by decide
  have htake63 : strTake 63 "" = "" := by decide
  have hload : (manifest_load_from_file (some d)).1 = false := by
    rcases hmiss with h|h|h|h|h|h|h|h|h|h <;>
      simp [manifest_load_from_file, manifest_init_m, strncpyField, h, htake,
        htake63]
  refine ⟨hload, ?_⟩
  cases hsp : manifestSearchPath fs p with
  | none => simp [clapgo_find_manifests, hsp]
  | some q =>
    rcases hml : manifest_load_from_file (some d) with ⟨b, mm⟩
    rw [hml] at hload
    subst hload
    simp [clapgo_find_manifests, hsp, hdocs, hml]

/-- Witness for C5 at the concrete id-less document. -/
theorem C5_required_fields_reject_witness :
    (manifest_load_from_file (some docMissingId)).1 = false ∧
    clapgo_find_manifests fsAllMissingId "/tmp/gain.clap" = [] :=
  C5_required_fields_reject docMissingId fsAllMissingId "/tmp/gain.clap"
    (Or.inl rfl) rfl

/-- C7: manifest discovery tries the plugin's own directory first and the
installed location second, taking the first readable match; with no match
the registry stays empty and bridge initialization fails; the registry never
holds more than one entry, and initialization fails exactly when the
registry is empty. -/
theorem C7_discovery_order_and_mandatory (fs : FsEnv) (p hm : String) :
    (fs.readable (manifestPathSameDir p) = true →
      manifestSearchPath fs p = some (manifestPathSameDir p)) ∧
    (fs.readable (manifestPathSameDir p) = false → fs.home = some hm →
      fs.readable (manifestPathInstalled hm p) = true →
      manifestSearchPath fs p = some (manifestPathInstalled hm p)) ∧
    (manifestSearchPath fs p = none → clapgo_find_manifests fs p = [] ∧
      (clapgo_init_m fs p).1 = false) ∧
    (clapgo_find_manifests fs p).length ≤ 1 ∧
    ((clapgo_init_m fs p).1 = false ↔ clapgo_find_manifests fs p = []) := by
  have hlen : (clapgo_find_manifests fs p).length ≤ 1 := by
    cases hsp : manifestSearchPath fs p with
    | none => simp [clapgo_find_manifests, hsp]
    | some q =>
      rcases hml : manifest_load_from_file (fs.docs q) with ⟨b, mm⟩
      cases b <;> simp [clapgo_find_manifests, hsp, hml]
  refine ⟨?_, ?_, ?_, hlen, ?_⟩
  · intro hr
    simp [manifestSearchPath, hr]
  · intro h1 h2 h3
    simp [manifestSearchPath, h1, h2, h3]
  · intro hn
    constructor
    · simp [clapgo_find_manifests, hn]
    · simp [clapgo_init_m, clapgo_find_manifests, hn]
  · cases hreg : clapgo_find_manifests fs p with
    | nil => simp [clapgo_init_m, hreg]
    | cons e rest => simp [clapgo_init_m, hreg]

/-- Witness for C7 on the filesystem with no manifest anywhere. -/
theorem C7_discovery_order_and_mandatory_witness :
    clapgo_find_manifests fsNothing "/tmp/gain.clap" = [] ∧
    (clapgo_init_m fsNothing "/tmp/gain.clap").1 = false :=
  (C7_discovery_order_and_mandatory fsNothing "/tmp/gain.clap" "").2.2.1 rfl

/-- C10: the reported plugin count is the registry size; descriptor
enumeration returns NULL for every index at or past that count (in the
bridge and in the factory of plugin.c alike) rather than reading out of
bounds, returns the freshly synthesized descriptor for an in-range index
whose lazy load succeeds, and returns the cached descriptor for an already
loaded entry. -/
theorem C10_descriptor_enumeration (a : Alloc) (k : Nat)
    (reg : List ManifestPluginEntry) (index : Nat)
    (descs : List (Option CDescriptor)) (j : Nat) :
    clapgo_get_plugin_count_m reg = reg.length ∧
    (reg.length ≤ index →
      (clapgo_get_plugin_descriptor_m a k reg index).1 = none) ∧
    (∀ (h : index < reg.length), (reg.get ⟨index, h⟩).loaded = false →
      ∀ dsc,
        (manifest_to_descriptor a k (reg.get ⟨index, h⟩).manifest).1 =
          some dsc →
        (clapgo_get_plugin_descriptor_m a k reg index).1 = some dsc) ∧
    (∀ (h : index < reg.length), (reg.get ⟨index, h⟩).loaded = true →
      (clapgo_get_plugin_descriptor_m a k reg index).1 =
        (reg.get ⟨index, h⟩).descriptor) ∧
    (descs.length ≤ j →
      clapgo_factory_get_plugin_descriptor_m descs j = none) := by
  refine ⟨rfl, ?_, ?_, ?_, ?_⟩
  · intro hle
    rw [clapgo_get_plugin_descriptor_m, dif_neg (by omega)]
  · intro h hnl dsc hmtd
    rw [clapgo_get_plugin_descriptor_m, dif_pos h]
    simp only [hnl, if_false, Bool.false_eq_true]
    rw [clapgo_load_manifest_plugin, dif_pos h]
    simp only [hnl, Bool.false_and, if_false, Bool.false_eq_true, hmtd]
    simp [List.getElem?_set_eq_of_lt _ (by simpa using h)]
  · intro h hl
    rw [clapgo_get_plugin_descriptor_m, dif_pos h]
    simp only [List.get_eq_getElem] at hl ⊢
    simp [hl]
  · intro hle
    rw [clapgo_factory_get_plugin_descriptor_m, dif_neg (by omega)]

/-- Witness for C10 on the concrete one-entry registry: index 0 enumerates
the synthesized descriptor, index 1 is out of range and yields NULL. -/
theorem C10_descriptor_enumeration_witness :
    (manifest_to_descriptor allocOk 0 manifestGain).1 = some gainDescriptor ∧
    (clapgo_get_plugin_descriptor_m allocOk 0 [entryGain] 0).1 =
      some gainDescriptor ∧
    (clapgo_get_plugin_descriptor_m allocOk 0 [entryGain] 1).1 = none :=
  ⟨rfl,
    (C10_descriptor_enumeration allocOk 0 [entryGain] 0 [] 0).2.2.1
      (by decide) rfl gainDescriptor rfl,
    (C10_descriptor_enumeration allocOk 0 [entryGain] 1 [] 0).2.1 (by decide)⟩

end Clapgo
